import Mathlib

/-!
# Verification of `CarParkingDemoSimulation.py`

A shallow embedding of the parking-lot core of the repository:
vehicles, passes, pricing strategies, parking tickets and the
`ParkingLot` orchestrator, together with theorems settling the
specification's claims about them.

Modelling conventions:
* timestamps are rationals (seconds since an arbitrary epoch);
  `datetime.now()` is modelled by threading an explicit `now` argument
  into every operation that samples the wall clock;
* Python `float` money/durations are modelled by rationals, and
  Python's `round(x, 2)` by round-half-to-even at two decimals;
* Python dicts are association lists: insertion prepends, lookup takes
  the first binding, deletion/overwrite act on the first binding;
* the shared mutable `ParkingPass` objects (the lot's registry and a
  ticket's applied pass alias the same object in Python) are modelled
  by storing the pass id in the ticket and threading the lot's pass
  registry through `calculate_fee`, which is where the aliasing is
  observable.
-/

namespace CarParking

/-- Round half to even at the integers, as Python's `round` does. -/
def roundHalfEven (q : ℚ) : ℤ :=
  let f : ℤ := ⌊q⌋
  let r : ℚ := q - f
  if r < 1/2 then f
  else if 1/2 < r then f + 1
  else if f % 2 = 0 then f else f + 1

/-- Python's `round(x, 2)`: round half to even at two decimal places. -/
def round2 (q : ℚ) : ℚ := (roundHalfEven (q * 100) : ℚ) / 100

/-! ## Vehicles -/

/-- The three concrete `Vehicle` subclasses. -/
inductive VehicleType where
  | Car
  | Motorcycle
  | Truck
deriving DecidableEq, Repr

/-- `get_vehicle_type`: the type-name string each subclass returns. -/
def VehicleType.get_vehicle_type : VehicleType → String
  | .Car => "Car"
  | .Motorcycle => "Motorcycle"
  | .Truck => "Truck"

/-- A `Vehicle`: registration number plus its concrete subclass. -/
structure Vehicle where
  registration_number : String
  vtype : VehicleType
deriving DecidableEq, Repr

/-- `get_space_requirement`: Truck needs 2 spaces, Car/Motorcycle 1. -/
def Vehicle.get_space_requirement (v : Vehicle) : ℤ :=
  match v.vtype with
  | .Truck => 2
  | _ => 1

/-- `get_registration`. -/
def Vehicle.get_registration (v : Vehicle) : String :=
  v.registration_number

/-! ## Pricing strategies -/

/-- A `PricingStrategy`: a strategy name, a rate table `_base_rates`
and the default rate used by `dict.get(vehicle_type, default)`. -/
structure PricingStrategy where
  strategy_name : String
  base_rates : List (String × ℚ)
  default_rate : ℚ
deriving DecidableEq, Repr

/-- `get_hourly_rate`: `self._base_rates.get(vehicle_type, default)`. -/
def PricingStrategy.get_hourly_rate (s : PricingStrategy) (vehicle_type : String) : ℚ :=
  match s.base_rates.lookup vehicle_type with
  | some r => r
  | none => s.default_rate

/-- `PricingStrategy.calculate_fee`:
`round(hourly_rate * duration_hours, 2)`. -/
def PricingStrategy.calculate_fee (s : PricingStrategy)
    (vehicle_type : String) (duration_hours : ℚ) : ℚ :=
  round2 (s.get_hourly_rate vehicle_type * duration_hours)

/-- `StandardPricing`: Car $2.00, Motorcycle $1.00, Truck $3.00; default 2.00. -/
def StandardPricing : PricingStrategy :=
  { strategy_name := "Standard"
    base_rates := [("Car", 2), ("Motorcycle", 1), ("Truck", 3)]
    default_rate := 2 }

/-- `PeakPricing`: Car $4.00, Motorcycle $2.00, Truck $6.00; default 4.00. -/
def PeakPricing : PricingStrategy :=
  { strategy_name := "Peak Hours"
    base_rates := [("Car", 4), ("Motorcycle", 2), ("Truck", 6)]
    default_rate := 4 }

/-- `WeekendPricing`: Car $1.50, Motorcycle $0.75, Truck $2.25; default 1.50. -/
def WeekendPricing : PricingStrategy :=
  { strategy_name := "Weekend"
    base_rates := [("Car", 3/2), ("Motorcycle", 3/4), ("Truck", 9/4)]
    default_rate := 3/2 }

/-! ## Parking passes -/

/-- The variant-specific state of a pass: `MonthlyPass` carries its
`_expiry_date`, `SingleEntryPass` its `_is_used` flag. -/
inductive PassKind where
  | monthly (expiry_date : ℚ)
  | single (is_used : Bool)
deriving DecidableEq, Repr

/-- A `ParkingPass` object: shared base fields plus the variant state. -/
structure ParkingPass where
  pass_id : String
  holder_name : String
  vehicle_registration : String
  kind : PassKind
deriving DecidableEq, Repr

/-- `SingleEntryPass.FLAT_RATE = 10.00`. -/
def FLAT_RATE : ℚ := 10

/-- `is_valid`, with `datetime.now()` made explicit:
Monthly: `now < expiry_date`; SingleEntry: `not is_used`. -/
def ParkingPass.is_valid (p : ParkingPass) (now : ℚ) : Bool :=
  match p.kind with
  | .monthly expiry => decide (now < expiry)
  | .single used => !used

/-- `use_pass`, returning the result and the (possibly mutated) pass:
Monthly inherits the base-class `return True` with no state change;
SingleEntry returns `False` if already used, else flips `_is_used`. -/
def ParkingPass.use_pass (p : ParkingPass) : Bool × ParkingPass :=
  match p.kind with
  | .single used =>
      if used then (false, p)
      else (true, { p with kind := .single true })
  | .monthly _ => (true, p)

/-- `get_pass_type`. -/
def ParkingPass.get_pass_type (p : ParkingPass) : String :=
  match p.kind with
  | .monthly _ => "Monthly Pass"
  | .single _ => "Single Entry Pass"

/-! ## Association-list helpers (Python dict operations) -/

/-- `k in d` / `d[k]`: first binding of the key, if any. -/
def lookupKey {α : Type} (l : List (String × α)) (k : String) : Option α :=
  match l with
  | [] => none
  | (k', v) :: rest => if k' = k then some v else lookupKey rest k

/-- `del d[k]`: drop the (first) binding of the key. -/
def eraseKey {α : Type} (l : List (String × α)) (k : String) : List (String × α) :=
  match l with
  | [] => []
  | (k', v) :: rest => if k' = k then rest else (k', v) :: eraseKey rest k

/-- In-place mutation of the object stored at a key
(`d[k].field = ...` through a shared reference). -/
def setKey {α : Type} (l : List (String × α)) (k : String) (v : α) : List (String × α) :=
  match l with
  | [] => []
  | (k', v') :: rest => if k' = k then (k', v) :: rest else (k', v') :: setKey rest k v

/-! ## Parking tickets -/

/-- A `ParkingTicket`. `_parking_pass` is a non-owning reference into
the lot's pass registry, modelled as the pass id. -/
structure ParkingTicket where
  ticket_id : String
  vehicle : Vehicle
  entry_time : ℚ
  exit_time : Option ℚ
  parking_pass : Option String
  fee_charged : ℚ
  spaces_used : ℤ
deriving DecidableEq, Repr

/-- `ParkingTicket.__init__`. -/
def ParkingTicket.init (ticket_id : String) (vehicle : Vehicle)
    (entry_time : ℚ) : ParkingTicket :=
  { ticket_id := ticket_id
    vehicle := vehicle
    entry_time := entry_time
    exit_time := none
    parking_pass := none
    fee_charged := 0
    spaces_used := vehicle.get_space_requirement }

/-- `get_duration_hours`:
`end = custom_exit_time or self._exit_time or datetime.now()`,
then `round((end - entry).total_seconds() / 3600, 2)`. -/
def ParkingTicket.get_duration_hours (t : ParkingTicket)
    (custom_exit_time : Option ℚ) (now : ℚ) : ℚ :=
  let end_time :=
    match custom_exit_time with
    | some e => e
    | none =>
      match t.exit_time with
      | some e => e
      | none => now
  round2 ((end_time - t.entry_time) / 3600)

/-- `set_exit_time`. -/
def ParkingTicket.set_exit_time (t : ParkingTicket) (exit_time : ℚ) : ParkingTicket :=
  { t with exit_time := some exit_time }

/-- `apply_pass`: refuse when the pass's bound registration differs
from the vehicle's; otherwise store the (reference to the) pass. -/
def ParkingTicket.apply_pass (t : ParkingTicket) (p : ParkingPass) :
    Bool × ParkingTicket :=
  if p.vehicle_registration ≠ t.vehicle.get_registration then (false, t)
  else (true, { t with parking_pass := some p.pass_id })

/-- The tail of `ParkingTicket.calculate_fee` past the pass checks:
metered billing. `duration_hours if duration_hours else ...` is a
Python truthiness test, so a supplied `0.0` falls back to
`get_duration_hours()`. -/
def ParkingTicket.meteredFee (t : ParkingTicket) (strategy : PricingStrategy)
    (duration_hours : Option ℚ) (passes : List (String × ParkingPass)) (now : ℚ) :
    ℚ × ParkingTicket × List (String × ParkingPass) :=
  let duration :=
    match duration_hours with
    | some d => if d ≠ 0 then d else t.get_duration_hours none now
    | none => t.get_duration_hours none now
  let fee := strategy.calculate_fee t.vehicle.vtype.get_vehicle_type duration
  (fee, { t with fee_charged := fee }, passes)

/-- `ParkingTicket.calculate_fee (strategy, duration_hours=None)`.
Returns the fee, the updated ticket (`_fee_charged` is written), and
the pass registry after the possible `use_pass` mutation of the shared
pass object. -/
def ParkingTicket.calculate_fee (t : ParkingTicket) (strategy : PricingStrategy)
    (duration_hours : Option ℚ) (passes : List (String × ParkingPass)) (now : ℚ) :
    ℚ × ParkingTicket × List (String × ParkingPass) :=
  match t.parking_pass with
  | some pid =>
    match lookupKey passes pid with
    | some p =>
      match p.kind with
      | .monthly expiry =>
        if now < expiry then
          (0, { t with fee_charged := 0 }, passes)
        else
          t.meteredFee strategy duration_hours passes now
      | .single used =>
        if !used then
          (FLAT_RATE, { t with fee_charged := FLAT_RATE },
            setKey passes pid { p with kind := .single true })
        else
          t.meteredFee strategy duration_hours passes now
    | none => t.meteredFee strategy duration_hours passes now
  | none => t.meteredFee strategy duration_hours passes now

/-! ## The parking lot -/

/-- Zero-padding of `f"{n:04d}"`. -/
def pad4 (n : ℕ) : String :=
  if n < 10 then "000" ++ toString n
  else if n < 100 then "00" ++ toString n
  else if n < 1000 then "0" ++ toString n
  else toString n

/-- The `ParkingLot` aggregate state. -/
structure ParkingLot where
  total_spaces : ℤ
  occupied_spaces : ℤ
  active_tickets : List (String × ParkingTicket)
  passes : List (String × ParkingPass)
  pricing_strategy : PricingStrategy
  ticket_counter : ℕ
  pass_counter_monthly : ℕ
  pass_counter_single : ℕ
deriving DecidableEq, Repr

/-- `ParkingLot.__init__(total_spaces)`. -/
def ParkingLot.init (total_spaces : ℤ) : ParkingLot :=
  { total_spaces := total_spaces
    occupied_spaces := 0
    active_tickets := []
    passes := []
    pricing_strategy := StandardPricing
    ticket_counter := 0
    pass_counter_monthly := 0
    pass_counter_single := 0 }

/-- `get_available_spaces`. -/
def ParkingLot.get_available_spaces (lot : ParkingLot) : ℤ :=
  lot.total_spaces - lot.occupied_spaces

/-- `set_occupied_spaces`: `occupied = min(count, total)`. -/
def ParkingLot.set_occupied_spaces (lot : ParkingLot) (count : ℤ) : ParkingLot :=
  { lot with occupied_spaces := min count lot.total_spaces }

/-- The receipt dictionary returned by `vehicle_exit`. -/
structure ExitDetails where
  ticket_id : String
  vehicle_reg : String
  vehicle_type : String
  entry_time : ℚ
  exit_time : ℚ
  duration_hours : ℚ
  pricing_strategy : String
  hourly_rate : ℚ
  total_fee : ℚ
  pass_type : Option String
  pass_id : Option String
deriving DecidableEq, Repr

/-- The status dictionary returned by `get_status`. -/
structure StatusSnapshot where
  total_spaces : ℤ
  occupied_spaces : ℤ
  available_spaces : ℤ
  active_tickets : ℕ
  registered_passes : ℕ
deriving DecidableEq, Repr

/-- `get_status`. -/
def ParkingLot.get_status (lot : ParkingLot) : StatusSnapshot :=
  { total_spaces := lot.total_spaces
    occupied_spaces := lot.occupied_spaces
    available_spaces := lot.get_available_spaces
    active_tickets := lot.active_tickets.length
    registered_passes := lot.passes.length }

/-- The ticket-construction and pass-attachment block of `vehicle_entry`:
build the ticket, then attach the pass only when `pass_id` is truthy,
registered, `is_valid()` holds at the wall clock, and `apply_pass`
accepts the registration. -/
def ParkingLot.entryTicket (lot : ParkingLot) (vehicle : Vehicle)
    (pass_id : Option String) (ticket_id : String)
    (actual_entry_time now : ℚ) : ParkingTicket :=
  let ticket0 := ParkingTicket.init ticket_id vehicle actual_entry_time
  match pass_id with
  | some pid =>
    if pid ≠ "" then
      match lookupKey lot.passes pid with
      | some p =>
        if p.is_valid now then (ticket0.apply_pass p).2 else ticket0
      | none => ticket0
    else ticket0
  | none => ticket0

/-- `vehicle_entry(vehicle, pass_id, entry_time, pricing_strategy)`.
Returns the `Optional[ParkingTicket]` result (`none` is the denied
outcome) together with the updated lot. The `pricing_strategy`
argument is only used for printing, hence unused here; `now` stands
for `datetime.now()`. -/
def ParkingLot.vehicle_entry (lot : ParkingLot) (vehicle : Vehicle)
    (pass_id : Option String) (entry_time : Option ℚ)
    (pricing_strategy : Option PricingStrategy) (now : ℚ) :
    Option ParkingTicket × ParkingLot :=
  let _ := pricing_strategy
  let spaces_needed := vehicle.get_space_requirement
  if lot.get_available_spaces < spaces_needed then
    (none, lot)
  else
    let counter := lot.ticket_counter + 1
    let ticket_id := "TKT-" ++ pad4 counter
    let actual_entry_time :=
      match entry_time with
      | some e => e
      | none => now
    let ticket := lot.entryTicket vehicle pass_id ticket_id actual_entry_time now
    (some ticket,
      { lot with
        occupied_spaces := lot.occupied_spaces + spaces_needed
        active_tickets := (ticket_id, ticket) :: lot.active_tickets
        ticket_counter := counter })

/-- `vehicle_exit(ticket_id, exit_time, pricing_strategy, simulated_duration)`.
Returns the `Optional[Dict]` receipt (`none` is the not-found outcome)
together with the updated lot. `if simulated_duration:` is a Python
truthiness test, so a supplied `0.0` override is ignored. -/
def ParkingLot.vehicle_exit (lot : ParkingLot) (ticket_id : String)
    (exit_time : Option ℚ) (pricing_strategy : Option PricingStrategy)
    (simulated_duration : Option ℚ) (now : ℚ) :
    Option ExitDetails × ParkingLot :=
  match lookupKey lot.active_tickets ticket_id with
  | none => (none, lot)
  | some ticket =>
    let actual_exit_time :=
      match exit_time with
      | some e => e
      | none => now
    let ticket := ticket.set_exit_time actual_exit_time
    let strategy :=
      match pricing_strategy with
      | some s => s
      | none => lot.pricing_strategy
    let duration :=
      match simulated_duration with
      | some d => if d ≠ 0 then d else ticket.get_duration_hours (some actual_exit_time) now
      | none => ticket.get_duration_hours (some actual_exit_time) now
    let feeResult := ticket.calculate_fee strategy (some duration) lot.passes now
    let fee := feeResult.1
    let ticket := feeResult.2.1
    let passes := feeResult.2.2
    let appliedPass :=
      match ticket.parking_pass with
      | some pid => lookupKey passes pid
      | none => none
    let details : ExitDetails :=
      { ticket_id := ticket_id
        vehicle_reg := ticket.vehicle.get_registration
        vehicle_type := ticket.vehicle.vtype.get_vehicle_type
        entry_time := ticket.entry_time
        exit_time := actual_exit_time
        duration_hours := duration
        pricing_strategy := strategy.strategy_name
        hourly_rate := strategy.get_hourly_rate ticket.vehicle.vtype.get_vehicle_type
        total_fee := fee
        pass_type := appliedPass.map ParkingPass.get_pass_type
        pass_id := appliedPass.map ParkingPass.pass_id }
    (some details,
      { lot with
        occupied_spaces := lot.occupied_spaces - ticket.spaces_used
        active_tickets := eraseKey lot.active_tickets ticket_id
        passes := passes })

/-- `issue_monthly_pass(holder_name, vehicle_registration, months)`:
expiry is `now + 30 * months` days (in seconds). -/
def ParkingLot.issue_monthly_pass (lot : ParkingLot) (holder_name : String)
    (vehicle_registration : String) (months : ℕ) (now : ℚ) :
    ParkingPass × ParkingLot :=
  let counter := lot.pass_counter_monthly + 1
  let pid := "MP-" ++ pad4 counter
  let expiry_date : ℚ := now + 30 * months * 86400
  let p : ParkingPass :=
    { pass_id := pid
      holder_name := holder_name
      vehicle_registration := vehicle_registration
      kind := .monthly expiry_date }
  (p, { lot with passes := (pid, p) :: lot.passes, pass_counter_monthly := counter })

/-- `issue_single_pass(holder_name, vehicle_registration)`. -/
def ParkingLot.issue_single_pass (lot : ParkingLot) (holder_name : String)
    (vehicle_registration : String) : ParkingPass × ParkingLot :=
  let counter := lot.pass_counter_single + 1
  let pid := "SP-" ++ pad4 counter
  let p : ParkingPass :=
    { pass_id := pid
      holder_name := holder_name
      vehicle_registration := vehicle_registration
      kind := .single false }
  (p, { lot with passes := (pid, p) :: lot.passes, pass_counter_single := counter })

/-! ## Operation sequences -/

/-- One call on the lot's mutating public interface, with every
wall-clock sample and optional argument made explicit. -/
inductive LotOp where
  | entry (vehicle : Vehicle) (pass_id : Option String) (entry_time : Option ℚ)
      (pricing_strategy : Option PricingStrategy) (now : ℚ)
  | leave (ticket_id : String) (exit_time : Option ℚ)
      (pricing_strategy : Option PricingStrategy) (simulated_duration : Option ℚ) (now : ℚ)
  | issueMonthly (holder_name : String) (vehicle_registration : String)
      (months : ℕ) (now : ℚ)
  | issueSingle (holder_name : String) (vehicle_registration : String)
  | setOccupied (count : ℤ)
deriving DecidableEq, Repr

/-- Whether the operation is the `set_occupied_spaces` simulation helper. -/
def LotOp.isSetOccupied : LotOp → Bool
  | .setOccupied _ => true
  | _ => false

/-- Apply one operation to the lot, discarding the returned value. -/
def applyOp (lot : ParkingLot) : LotOp → ParkingLot
  | .entry v pid et ps now => (lot.vehicle_entry v pid et ps now).2
  | .leave tid et ps sd now => (lot.vehicle_exit tid et ps sd now).2
  | .issueMonthly h r m now => (lot.issue_monthly_pass h r m now).2
  | .issueSingle h r => (lot.issue_single_pass h r).2
  | .setOccupied c => lot.set_occupied_spaces c

/-- Run a sequence of operations. -/
def runOps (lot : ParkingLot) (ops : List LotOp) : ParkingLot :=
  ops.foldl applyOp lot

/-- Sum of `spaces_used` over the active-ticket registry. -/
def sumSpaces (l : List (String × ParkingTicket)) : ℤ :=
  (l.map (fun kt => kt.2.spaces_used)).sum

/-- The guard under which `ParkingTicket.calculate_fee` falls through
to metered billing: no applied pass, a dangling reference, an expired
monthly pass, or a consumed single-entry pass. -/
def meteredApplies (t : ParkingTicket) (passes : List (String × ParkingPass))
    (now : ℚ) : Bool :=
  match t.parking_pass with
  | none => true
  | some pid =>
    match lookupKey passes pid with
    | none => true
    | some p =>
      match p.kind with
      | .monthly expiry => decide (expiry ≤ now)
      | .single used => used

/-! ## Helper lemmas -/

theorem lookupKey_mem {α : Type} {l : List (String × α)} {k : String} {v : α}
    (h : lookupKey l k = some v) : (k, v) ∈ l := by
  induction l with
  | nil => simp [lookupKey] at h
  | cons kv rest ih =>
    obtain ⟨k', v'⟩ := kv
    by_cases hk : k' = k
    · subst hk
      simp [lookupKey] at h
      simp [h]
    · simp [lookupKey, hk] at h
      exact List.mem_cons_of_mem _ (ih h)

theorem mem_eraseKey {α : Type} {l : List (String × α)} {k : String} {kv : String × α}
    (h : kv ∈ eraseKey l k) : kv ∈ l := by
  induction l with
  | nil => simp [eraseKey] at h
  | cons kv' rest ih =>
    obtain ⟨k', v'⟩ := kv'
    by_cases hk : k' = k
    · subst hk
      simp [eraseKey] at h
      exact List.mem_cons_of_mem _ h
    · simp only [eraseKey, if_neg hk] at h
      rcases List.mem_cons.mp h with h1 | h2
      · exact h1 ▸ List.mem_cons_self _ _
      · exact List.mem_cons_of_mem _ (ih h2)

theorem lookupKey_setKey_self {α : Type} {l : List (String × α)} {k : String}
    {w : α} (v : α) (h : lookupKey l k = some w) :
    lookupKey (setKey l k v) k = some v := by
  induction l with
  | nil => simp [lookupKey] at h
  | cons kv rest ih =>
    obtain ⟨k', v'⟩ := kv
    by_cases hk : k' = k
    · subst hk
      simp [setKey, lookupKey]
    · simp only [lookupKey, if_neg hk] at h
      simp only [setKey, if_neg hk, lookupKey]
      exact ih h

theorem sumSpaces_nil : sumSpaces [] = 0 := rfl

theorem sumSpaces_cons (k : String) (t : ParkingTicket)
    (l : List (String × ParkingTicket)) :
    sumSpaces ((k, t) :: l) = t.spaces_used + sumSpaces l := by
  simp [sumSpaces]

theorem sumSpaces_eraseKey {l : List (String × ParkingTicket)} {k : String}
    {t : ParkingTicket} (h : lookupKey l k = some t) :
    sumSpaces (eraseKey l k) = sumSpaces l - t.spaces_used := by
  induction l with
  | nil => simp [lookupKey] at h
  | cons kv rest ih =>
    obtain ⟨k', t'⟩ := kv
    by_cases hk : k' = k
    · subst hk
      simp [lookupKey] at h
      subst h
      simp [eraseKey, sumSpaces_cons]
    · simp only [lookupKey, if_neg hk] at h
      simp only [eraseKey, if_neg hk]
      rw [sumSpaces_cons, sumSpaces_cons, ih h]
      ring

theorem sumSpaces_nonneg {l : List (String × ParkingTicket)}
    (h : ∀ kt ∈ l, 0 ≤ kt.2.spaces_used) : 0 ≤ sumSpaces l := by
  induction l with
  | nil => simp [sumSpaces]
  | cons kv rest ih =>
    rw [show kv = (kv.1, kv.2) from rfl, sumSpaces_cons]
    have h1 := h kv (List.mem_cons_self _ _)
    have h2 : 0 ≤ sumSpaces rest := ih (fun kt hkt => h kt (List.mem_cons_of_mem _ hkt))
    linarith

theorem Vehicle.space_requirement_nonneg (v : Vehicle) :
    0 ≤ v.get_space_requirement := by
  unfold Vehicle.get_space_requirement
  split <;> norm_num

theorem apply_pass_spaces_used (t : ParkingTicket) (p : ParkingPass) :
    (t.apply_pass p).2.spaces_used = t.spaces_used := by
  unfold ParkingTicket.apply_pass
  split <;> rfl

theorem meteredFee_spaces_used (t : ParkingTicket) (s : PricingStrategy)
    (dh : Option ℚ) (ps : List (String × ParkingPass)) (now : ℚ) :
    (t.meteredFee s dh ps now).2.1.spaces_used = t.spaces_used := rfl

theorem calculate_fee_spaces_used (t : ParkingTicket) (s : PricingStrategy)
    (dh : Option ℚ) (ps : List (String × ParkingPass)) (now : ℚ) :
    (t.calculate_fee s dh ps now).2.1.spaces_used = t.spaces_used := by
  unfold ParkingTicket.calculate_fee
  repeat' split
  all_goals rfl

theorem entryTicket_spaces_used (lot : ParkingLot) (v : Vehicle)
    (pid : Option String) (tid : String) (aet now : ℚ) :
    (lot.entryTicket v pid tid aet now).spaces_used = v.get_space_requirement := by
  unfold ParkingLot.entryTicket
  repeat' split
  all_goals simp [ParkingTicket.apply_pass, ParkingTicket.init]
  all_goals split <;> rfl

theorem entryTicket_vehicle (lot : ParkingLot) (v : Vehicle)
    (pid : Option String) (tid : String) (aet now : ℚ) :
    (lot.entryTicket v pid tid aet now).vehicle = v := by
  unfold ParkingLot.entryTicket
  repeat' split
  all_goals simp [ParkingTicket.apply_pass, ParkingTicket.init]
  all_goals split <;> rfl

theorem vehicle_entry_denied {lot : ParkingLot} {v : Vehicle}
    (pid : Option String) (et : Option ℚ) (ps : Option PricingStrategy) (now : ℚ)
    (h : lot.get_available_spaces < v.get_space_requirement) :
    lot.vehicle_entry v pid et ps now = (none, lot) := by
  unfold ParkingLot.vehicle_entry
  simp [h]

theorem vehicle_entry_granted {lot : ParkingLot} {v : Vehicle}
    (pid : Option String) (et : Option ℚ) (ps : Option PricingStrategy) (now : ℚ)
    (h : ¬ lot.get_available_spaces < v.get_space_requirement) :
    lot.vehicle_entry v pid et ps now =
      (some (lot.entryTicket v pid ("TKT-" ++ pad4 (lot.ticket_counter + 1))
          (match et with | some e => e | none => now) now),
        { lot with
          occupied_spaces := lot.occupied_spaces + v.get_space_requirement
          active_tickets :=
            ("TKT-" ++ pad4 (lot.ticket_counter + 1),
              lot.entryTicket v pid ("TKT-" ++ pad4 (lot.ticket_counter + 1))
                (match et with | some e => e | none => now) now) :: lot.active_tickets
          ticket_counter := lot.ticket_counter + 1 }) := by
  unfold ParkingLot.vehicle_entry
  simp [h]

theorem vehicle_exit_notfound {lot : ParkingLot} {tid : String}
    (et : Option ℚ) (ps : Option PricingStrategy) (sd : Option ℚ) (now : ℚ)
    (h : lookupKey lot.active_tickets tid = none) :
    lot.vehicle_exit tid et ps sd now = (none, lot) := by
  unfold ParkingLot.vehicle_exit
  rw [h]

theorem vehicle_exit_found {lot : ParkingLot} {tid : String} {t : ParkingTicket}
    (et : Option ℚ) (ps : Option PricingStrategy) (sd : Option ℚ) (now : ℚ)
    (h : lookupKey lot.active_tickets tid = some t) :
    lot.vehicle_exit tid et ps sd now =
      (let actual_exit_time := match et with | some e => e | none => now
       let t1 := t.set_exit_time actual_exit_time
       let strategy := match ps with | some s => s | none => lot.pricing_strategy
       let duration :=
         match sd with
         | some d => if d ≠ 0 then d else t1.get_duration_hours (some actual_exit_time) now
         | none => t1.get_duration_hours (some actual_exit_time) now
       let feeResult := t1.calculate_fee strategy (some duration) lot.passes now
       let appliedPass :=
         match feeResult.2.1.parking_pass with
         | some pid => lookupKey feeResult.2.2 pid
         | none => none
       (some
         { ticket_id := tid
           vehicle_reg := feeResult.2.1.vehicle.get_registration
           vehicle_type := feeResult.2.1.vehicle.vtype.get_vehicle_type
           entry_time := feeResult.2.1.entry_time
           exit_time := actual_exit_time
           duration_hours := duration
           pricing_strategy := strategy.strategy_name
           hourly_rate := strategy.get_hourly_rate feeResult.2.1.vehicle.vtype.get_vehicle_type
           total_fee := feeResult.1
           pass_type := appliedPass.map ParkingPass.get_pass_type
           pass_id := appliedPass.map ParkingPass.pass_id },
        { lot with
          occupied_spaces := lot.occupied_spaces - feeResult.2.1.spaces_used
          active_tickets := eraseKey lot.active_tickets tid
          passes := feeResult.2.2 })) := by
  unfold ParkingLot.vehicle_exit
  rw [h]

/-! ## Capacity-accounting invariant -/

/-- The registry part of the capacity invariant: `occupied_spaces` is
the sum of `spaces_used` over the active tickets, and every active
ticket uses a nonnegative number of spaces. -/
def TicketInv (lot : ParkingLot) : Prop :=
  lot.occupied_spaces = sumSpaces lot.active_tickets ∧
  ∀ kt ∈ lot.active_tickets, 0 ≤ kt.2.spaces_used

theorem ticketInv_entry {lot : ParkingLot} (h : TicketInv lot)
    (v : Vehicle) (pid : Option String) (et : Option ℚ)
    (ps : Option PricingStrategy) (now : ℚ) :
    TicketInv (lot.vehicle_entry v pid et ps now).2 := by
  obtain ⟨hsum, hpos⟩ := h
  by_cases hc : lot.get_available_spaces < v.get_space_requirement
  · rw [vehicle_entry_denied pid et ps now hc]
    exact ⟨hsum, hpos⟩
  · rw [vehicle_entry_granted pid et ps now hc]
    constructor
    · simp only [sumSpaces_cons, entryTicket_spaces_used]
      rw [hsum]
      ring
    · intro kt hkt
      rcases List.mem_cons.mp hkt with h1 | h2
      · rw [h1]
        simp only [entryTicket_spaces_used]
        exact Vehicle.space_requirement_nonneg v
      · exact hpos kt h2

theorem ticketInv_exit {lot : ParkingLot} (h : TicketInv lot)
    (tid : String) (et : Option ℚ) (ps : Option PricingStrategy)
    (sd : Option ℚ) (now : ℚ) :
    TicketInv (lot.vehicle_exit tid et ps sd now).2 := by
  obtain ⟨hsum, hpos⟩ := h
  rcases ht : lookupKey lot.active_tickets tid with _ | t
  · rw [vehicle_exit_notfound et ps sd now ht]
    exact ⟨hsum, hpos⟩
  · rw [vehicle_exit_found et ps sd now ht]
    constructor
    · show lot.occupied_spaces - _ = sumSpaces (eraseKey lot.active_tickets tid)
      rw [sumSpaces_eraseKey ht, calculate_fee_spaces_used]
      show lot.occupied_spaces - (t.set_exit_time _).spaces_used = _
      rw [show (t.set_exit_time _).spaces_used = t.spaces_used from rfl, hsum]
    · intro kt hkt
      exact hpos kt (mem_eraseKey hkt)

theorem ticketInv_applyOp {lot : ParkingLot} {op : LotOp} (h : TicketInv lot)
    (hop : op.isSetOccupied = false) : TicketInv (applyOp lot op) := by
  cases op with
  | entry v pid et ps now => exact ticketInv_entry h v pid et ps now
  | leave tid et ps sd now => exact ticketInv_exit h tid et ps sd now
  | issueMonthly hn r m now => exact h
  | issueSingle hn r => exact h
  | setOccupied c => simp [LotOp.isSetOccupied] at hop

theorem ticketInv_runOps {lot : ParkingLot} (h : TicketInv lot)
    {ops : List LotOp} (hops : ∀ op ∈ ops, op.isSetOccupied = false) :
    TicketInv (runOps lot ops) := by
  induction ops generalizing lot with
  | nil => exact h
  | cons op rest ih =>
    have h1 : TicketInv (applyOp lot op) :=
      ticketInv_applyOp h (hops op (List.mem_cons_self _ _))
    exact ih h1 (fun o ho => hops o (List.mem_cons_of_mem _ ho))

theorem total_spaces_applyOp (lot : ParkingLot) (op : LotOp) :
    (applyOp lot op).total_spaces = lot.total_spaces := by
  cases op with
  | entry v pid et ps now =>
    by_cases hc : lot.get_available_spaces < v.get_space_requirement
    · rw [show applyOp lot (.entry v pid et ps now) = (lot.vehicle_entry v pid et ps now).2 from rfl,
        vehicle_entry_denied pid et ps now hc]
    · rw [show applyOp lot (.entry v pid et ps now) = (lot.vehicle_entry v pid et ps now).2 from rfl,
        vehicle_entry_granted pid et ps now hc]
  | leave tid et ps sd now =>
    rcases ht : lookupKey lot.active_tickets tid with _ | t
    · rw [show applyOp lot (.leave tid et ps sd now) = (lot.vehicle_exit tid et ps sd now).2 from rfl,
        vehicle_exit_notfound et ps sd now ht]
    · rw [show applyOp lot (.leave tid et ps sd now) = (lot.vehicle_exit tid et ps sd now).2 from rfl,
        vehicle_exit_found et ps sd now ht]
  | issueMonthly hn r m now => rfl
  | issueSingle hn r => rfl
  | setOccupied c => rfl

theorem occupied_le_total_applyOp {lot : ParkingLot} {op : LotOp}
    (hti : TicketInv lot) (hb : lot.occupied_spaces ≤ lot.total_spaces)
    (hop : op.isSetOccupied = false) :
    (applyOp lot op).occupied_spaces ≤ (applyOp lot op).total_spaces := by
  rw [total_spaces_applyOp]
  cases op with
  | entry v pid et ps now =>
    show (lot.vehicle_entry v pid et ps now).2.occupied_spaces ≤ lot.total_spaces
    by_cases hc : lot.get_available_spaces < v.get_space_requirement
    · rw [vehicle_entry_denied pid et ps now hc]
      exact hb
    · rw [vehicle_entry_granted pid et ps now hc]
      show lot.occupied_spaces + v.get_space_requirement ≤ lot.total_spaces
      have : v.get_space_requirement ≤ lot.total_spaces - lot.occupied_spaces := not_lt.mp hc
      linarith
  | leave tid et ps sd now =>
    show (lot.vehicle_exit tid et ps sd now).2.occupied_spaces ≤ lot.total_spaces
    rcases ht : lookupKey lot.active_tickets tid with _ | t
    · rw [vehicle_exit_notfound et ps sd now ht]
      exact hb
    · rw [vehicle_exit_found et ps sd now ht]
      show lot.occupied_spaces - _ ≤ lot.total_spaces
      rw [calculate_fee_spaces_used]
      simp only [ParkingTicket.set_exit_time]
      have hts : 0 ≤ t.spaces_used := hti.2 (tid, t) (lookupKey_mem ht)
      linarith
  | issueMonthly hn r m now => exact hb
  | issueSingle hn r => exact hb
  | setOccupied c => simp [LotOp.isSetOccupied] at hop

theorem occupied_nonneg_of_ticketInv {lot : ParkingLot} (h : TicketInv lot) :
    0 ≤ lot.occupied_spaces := by
  rw [h.1]
  exact sumSpaces_nonneg h.2

theorem bounds_runOps {lot : ParkingLot} (hti : TicketInv lot)
    (hb : lot.occupied_spaces ≤ lot.total_spaces)
    {ops : List LotOp} (hops : ∀ op ∈ ops, op.isSetOccupied = false) :
    TicketInv (runOps lot ops) ∧
      (runOps lot ops).occupied_spaces ≤ (runOps lot ops).total_spaces := by
  induction ops generalizing lot with
  | nil => exact ⟨hti, hb⟩
  | cons op rest ih =>
    have h1 := ticketInv_applyOp hti (hops op (List.mem_cons_self _ _))
    have h2 := occupied_le_total_applyOp hti hb (hops op (List.mem_cons_self _ _))
    exact ih h1 h2 (fun o ho => hops o (List.mem_cons_of_mem _ ho))

/-! ## Fee-computation branch lemmas -/

theorem calculate_fee_monthly_valid {t : ParkingTicket} {pid : String}
    {p : ParkingPass} {expiry : ℚ} (s : PricingStrategy) (dh : Option ℚ)
    {passes : List (String × ParkingPass)} {now : ℚ}
    (hp : t.parking_pass = some pid)
    (hlk : lookupKey passes pid = some p)
    (hk : p.kind = .monthly expiry)
    (hv : now < expiry) :
    t.calculate_fee s dh passes now = (0, { t with fee_charged := 0 }, passes) := by
  unfold ParkingTicket.calculate_fee
  rw [hp]
  simp only [hlk, hk, if_pos hv]

theorem calculate_fee_single_fresh {t : ParkingTicket} {pid : String}
    {p : ParkingPass} (s : PricingStrategy) (dh : Option ℚ)
    {passes : List (String × ParkingPass)} (now : ℚ)
    (hp : t.parking_pass = some pid)
    (hlk : lookupKey passes pid = some p)
    (hk : p.kind = .single false) :
    t.calculate_fee s dh passes now =
      (FLAT_RATE, { t with fee_charged := FLAT_RATE },
        setKey passes pid { p with kind := .single true }) := by
  unfold ParkingTicket.calculate_fee
  rw [hp]
  simp only [hlk, hk, Bool.not_false, if_pos]

theorem calculate_fee_metered {t : ParkingTicket} (s : PricingStrategy)
    (dh : Option ℚ) {passes : List (String × ParkingPass)} {now : ℚ}
    (hm : meteredApplies t passes now = true) :
    t.calculate_fee s dh passes now = t.meteredFee s dh passes now := by
  unfold ParkingTicket.calculate_fee
  unfold meteredApplies at hm
  rcases hp : t.parking_pass with _ | pid
  · rfl
  · rw [hp] at hm
    dsimp only at hm ⊢
    rcases hlk : lookupKey passes pid with _ | p
    · rfl
    · rw [hlk] at hm
      dsimp only at hm ⊢
      rcases hk : p.kind with expiry | used
      · rw [hk] at hm
        dsimp only at hm ⊢
        simp only [decide_eq_true_eq] at hm
        rw [if_neg (not_lt.mpr hm)]
      · rw [hk] at hm
        dsimp only at hm
        subst hm
        simp

theorem meteredFee_some {t : ParkingTicket} (s : PricingStrategy) {d : ℚ}
    (ps : List (String × ParkingPass)) (now : ℚ)
    (hd : d ≠ 0 ∨ t.get_duration_hours none now = d) :
    t.meteredFee s (some d) ps now =
      (s.calculate_fee t.vehicle.vtype.get_vehicle_type d,
        { t with fee_charged := s.calculate_fee t.vehicle.vtype.get_vehicle_type d },
        ps) := by
  unfold ParkingTicket.meteredFee
  by_cases h0 : d = 0
  · rcases hd with hd | hd
    · exact absurd h0 hd
    · subst h0
      simp [hd]
  · simp [h0]

theorem meteredFee_some_fst {t : ParkingTicket} (s : PricingStrategy) {d : ℚ}
    (ps : List (String × ParkingPass)) (now : ℚ)
    (hd : d ≠ 0 ∨ t.get_duration_hours none now = d) :
    (t.meteredFee s (some d) ps now).1 =
      s.calculate_fee t.vehicle.vtype.get_vehicle_type d := by
  rw [meteredFee_some s ps now hd]

/-- Fully characterizes `vehicle_exit` on an exit that reaches metered
billing: the receipt exists, its recorded duration honors a nonzero
override and otherwise derives from `(exit − entry) / 3600` rounded to
two decimals, and the fee is the strategy's metered formula on that
duration. -/
theorem vehicle_exit_metered {lot : ParkingLot} {tid : String} {t : ParkingTicket}
    (et : Option ℚ) (ps : Option PricingStrategy) (sd : Option ℚ) (now : ℚ)
    (ht : lookupKey lot.active_tickets tid = some t)
    (hm : meteredApplies t lot.passes now = true) :
    ∃ d : ExitDetails,
      (lot.vehicle_exit tid et ps sd now).1 = some d ∧
      d.duration_hours =
        (match sd with
         | some x => if x ≠ 0 then x
             else round2 (((match et with | some e => e | none => now) - t.entry_time) / 3600)
         | none => round2 (((match et with | some e => e | none => now) - t.entry_time) / 3600)) ∧
      d.pricing_strategy =
        (match ps with | some s => s | none => lot.pricing_strategy).strategy_name ∧
      d.total_fee =
        (match ps with | some s => s | none => lot.pricing_strategy).calculate_fee
          t.vehicle.vtype.get_vehicle_type d.duration_hours := by
  rw [vehicle_exit_found et ps sd now ht]
  have hm1 : meteredApplies
      (t.set_exit_time (match et with | some e => e | none => now)) lot.passes now = true := hm
  refine ⟨_, rfl, rfl, rfl, ?_⟩
  show (ParkingTicket.calculate_fee _ _ _ _ _).1 = _
  rw [calculate_fee_metered _ _ hm1]
  apply meteredFee_some_fst
  rcases sd with _ | x
  · right
    rfl
  · by_cases hx : x = 0
    · subst hx
      right
      simp only [ne_eq, not_true_eq_false, if_false]
      rfl
    · left
      dsimp only
      rw [if_pos hx]
      exact hx

theorem calculate_fee_no_pass {t : ParkingTicket} (s : PricingStrategy)
    (dh : Option ℚ) (passes : List (String × ParkingPass)) (now : ℚ)
    (hp : t.parking_pass = none) :
    t.calculate_fee s dh passes now = t.meteredFee s dh passes now := by
  unfold ParkingTicket.calculate_fee
  rw [hp]

theorem total_spaces_runOps (lot : ParkingLot) (ops : List LotOp) :
    (runOps lot ops).total_spaces = lot.total_spaces := by
  induction ops generalizing lot with
  | nil => rfl
  | cons op rest ih =>
    show (runOps (applyOp lot op) rest).total_spaces = _
    rw [ih, total_spaces_applyOp]

theorem pricing_strategy_applyOp (lot : ParkingLot) (op : LotOp) :
    (applyOp lot op).pricing_strategy = lot.pricing_strategy := by
  cases op with
  | entry v pid et ps now =>
    show (lot.vehicle_entry v pid et ps now).2.pricing_strategy = _
    by_cases hc : lot.get_available_spaces < v.get_space_requirement
    · rw [vehicle_entry_denied pid et ps now hc]
    · rw [vehicle_entry_granted pid et ps now hc]
  | leave tid et ps sd now =>
    show (lot.vehicle_exit tid et ps sd now).2.pricing_strategy = _
    rcases ht : lookupKey lot.active_tickets tid with _ | t
    · rw [vehicle_exit_notfound et ps sd now ht]
    · rw [vehicle_exit_found et ps sd now ht]
  | issueMonthly hn r m now => rfl
  | issueSingle hn r => rfl
  | setOccupied c => rfl

/-- Which pass (if any) the `vehicle_entry` attachment logic puts on the
new ticket: the registered pass is attached exactly when it is valid at
the wall clock and bound to the entering vehicle's registration. -/
theorem entryTicket_pass_spec (lot : ParkingLot) (v : Vehicle) (pid : String)
    (tid : String) (aet now : ℚ) (hpid : pid ≠ "")
    (hwf : ∀ q : ParkingPass, lookupKey lot.passes pid = some q → q.pass_id = pid) :
    ((lot.entryTicket v (some pid) tid aet now).parking_pass = some pid ↔
      ∃ p, lookupKey lot.passes pid = some p ∧ p.is_valid now = true ∧
        p.vehicle_registration = v.get_registration) ∧
    ((lot.entryTicket v (some pid) tid aet now).parking_pass = some pid ∨
      (lot.entryTicket v (some pid) tid aet now).parking_pass = none) := by
  unfold ParkingLot.entryTicket
  dsimp only
  rw [if_pos hpid]
  rcases hlk : lookupKey lot.passes pid with _ | p
  · constructor
    · simp [ParkingTicket.init]
    · right
      rfl
  · have hid : p.pass_id = pid := hwf p hlk
    dsimp only
    by_cases hv : p.is_valid now = true
    · rw [if_pos hv]
      unfold ParkingTicket.apply_pass
      by_cases hreg : p.vehicle_registration = v.get_registration
      · rw [if_neg (by simpa [ParkingTicket.init] using not_not_intro hreg)]
        constructor
        · simp only [ParkingTicket.init, hid]
          exact ⟨fun _ => ⟨p, rfl, hv, hreg⟩, fun _ => trivial⟩
        · left
          simp [ParkingTicket.init, hid]
      · rw [if_pos (by simpa [ParkingTicket.init] using hreg)]
        constructor
        · simp only [ParkingTicket.init]
          constructor
          · intro h
            exact absurd h (by simp)
          · rintro ⟨q, hq, _, hq2⟩
            rw [Option.some.inj hq] at hreg
            exact absurd hq2 hreg
        · right
          rfl
    · rw [if_neg hv]
      constructor
      · simp only [ParkingTicket.init]
        constructor
        · intro h
          exact absurd h (by simp)
        · rintro ⟨q, hq, hq1, _⟩
          rw [Option.some.inj hq] at hv
          exact absurd hq1 hv
      · right
        rfl

/-! ## Claims -/

/-- C1: for every sequence of `vehicle_entry` / `vehicle_exit` (and
pass-issuing) calls on a freshly constructed `ParkingLot` — no
`set_occupied_spaces` — after each operation `occupied_spaces` equals
the sum of `spaces_used` over the tickets in the active registry.
(Every prefix of `ops` is itself such a sequence, so this holds after
each operation.) -/
theorem C1_occupied_eq_sum_active (total : ℤ) (ops : List LotOp)
    (hops : ∀ op ∈ ops, op.isSetOccupied = false) :
    (runOps (ParkingLot.init total) ops).occupied_spaces =
      sumSpaces (runOps (ParkingLot.init total) ops).active_tickets :=
  (ticketInv_runOps ⟨rfl, fun _ hkt => absurd hkt (List.not_mem_nil _)⟩ hops).1

theorem C1_occupied_eq_sum_active_witness :
    (∀ op ∈ ([LotOp.entry ⟨"ABC-1234", VehicleType.Car⟩ none (some 0) none 0,
              LotOp.entry ⟨"TRK-9999", VehicleType.Truck⟩ none (some 60) none 60,
              LotOp.leave "TKT-0001" (some 3600) none none 3600] : List LotOp),
        op.isSetOccupied = false) ∧
    (runOps (ParkingLot.init 300)
        [LotOp.entry ⟨"ABC-1234", VehicleType.Car⟩ none (some 0) none 0,
         LotOp.entry ⟨"TRK-9999", VehicleType.Truck⟩ none (some 60) none 60,
         LotOp.leave "TKT-0001" (some 3600) none none 3600]).occupied_spaces =
      sumSpaces (runOps (ParkingLot.init 300)
        [LotOp.entry ⟨"ABC-1234", VehicleType.Car⟩ none (some 0) none 0,
         LotOp.entry ⟨"TRK-9999", VehicleType.Truck⟩ none (some 60) none 60,
         LotOp.leave "TKT-0001" (some 3600) none none 3600]).active_tickets :=
  ⟨by decide, C1_occupied_eq_sum_active 300 _ (by decide)⟩

/-- C2: when the available spaces are strictly below the vehicle's
space requirement, `vehicle_entry` returns the denied outcome (`None`)
and the lot — occupied spaces, active tickets, passes and both id
counters — is returned completely unchanged. -/
theorem C2_entry_denied_no_change (lot : ParkingLot) (v : Vehicle)
    (pid : Option String) (et : Option ℚ) (ps : Option PricingStrategy) (now : ℚ)
    (h : lot.get_available_spaces < v.get_space_requirement) :
    lot.vehicle_entry v pid et ps now = (none, lot) :=
  vehicle_entry_denied pid et ps now h

theorem C2_entry_denied_no_change_witness :
    (ParkingLot.init 0).get_available_spaces <
      (⟨"NEW-0001", VehicleType.Car⟩ : Vehicle).get_space_requirement ∧
    (ParkingLot.init 0).vehicle_entry ⟨"NEW-0001", VehicleType.Car⟩ none none none 0 =
      (none, ParkingLot.init 0) :=
  ⟨by decide, C2_entry_denied_no_change (ParkingLot.init 0) ⟨"NEW-0001", VehicleType.Car⟩
    none none none 0 (by decide)⟩

/-- C5: the metered fee is `round(hourly_rate(category) × duration, 2)`
for every strategy, category string and duration; in particular a Car
under Standard pricing for 3.5 h costs 7.00, a Truck under Peak
pricing for 4.0 h costs 24.00, and a Motorcycle under Weekend pricing
for 5.0 h costs 3.75. -/
theorem C5_metered_fee_formula :
    (∀ (s : PricingStrategy) (vt : String) (dh : ℚ),
        s.calculate_fee vt dh = round2 (s.get_hourly_rate vt * dh)) ∧
    StandardPricing.calculate_fee "Car" (7/2) = 7 ∧
    PeakPricing.calculate_fee "Truck" 4 = 24 ∧
    WeekendPricing.calculate_fee "Motorcycle" 5 = 15/4 := by
  refine ⟨fun s vt dh => rfl, ?_, ?_, ?_⟩ <;> with_unfolding_all decide

/-- C7: `vehicle_exit` on a ticket id that is not in the active
registry returns the not-found outcome (`None`) and leaves the lot —
active tickets, occupied spaces and passes — unchanged. -/
theorem C7_exit_unknown_ticket (lot : ParkingLot) (tid : String)
    (et : Option ℚ) (ps : Option PricingStrategy) (sd : Option ℚ) (now : ℚ)
    (h : lookupKey lot.active_tickets tid = none) :
    lot.vehicle_exit tid et ps sd now = (none, lot) :=
  vehicle_exit_notfound et ps sd now h

theorem C7_exit_unknown_ticket_witness :
    lookupKey (ParkingLot.init 300).active_tickets "TKT-0042" = none ∧
    (ParkingLot.init 300).vehicle_exit "TKT-0042" (some 3600) none none 3600 =
      (none, ParkingLot.init 300) :=
  ⟨by decide, C7_exit_unknown_ticket (ParkingLot.init 300) "TKT-0042"
    (some 3600) none none 3600 (by decide)⟩

set_option maxRecDepth 2000 in
/-- C3 counterexample: a ticket closed with an attached monthly pass
that is still valid at the closing time (`3600 < 2592000`) is
nonetheless billed the metered fee `2.00 ≠ 0`, because
`MonthlyPass.is_valid()` samples `datetime.now()` (here `3000000`, past
the expiry) instead of the recorded closing time. -/
theorem C3_monthly_closing_time_cex :
    lookupKey ((((ParkingLot.init 10).issue_monthly_pass
          "John Smith" "XYZ-5678" 1 0).2.vehicle_entry
          ⟨"XYZ-5678", VehicleType.Car⟩ (some "MP-0001") (some 0) none 0).2).active_tickets
        "TKT-0001" =
      some ⟨"TKT-0001", ⟨"XYZ-5678", VehicleType.Car⟩, 0, none, some "MP-0001", 0, 1⟩ ∧
    lookupKey ((((ParkingLot.init 10).issue_monthly_pass
          "John Smith" "XYZ-5678" 1 0).2.vehicle_entry
          ⟨"XYZ-5678", VehicleType.Car⟩ (some "MP-0001") (some 0) none 0).2).passes
        "MP-0001" =
      some ⟨"MP-0001", "John Smith", "XYZ-5678", PassKind.monthly 2592000⟩ ∧
    (3600 : ℚ) < 2592000 ∧
    (((((ParkingLot.init 10).issue_monthly_pass
          "John Smith" "XYZ-5678" 1 0).2.vehicle_entry
          ⟨"XYZ-5678", VehicleType.Car⟩ (some "MP-0001") (some 0) none 0).2).vehicle_exit
        "TKT-0001" (some 3600) none none 3000000).1.map ExitDetails.total_fee = some 2 ∧
    (2 : ℚ) ≠ 0 :=
  ⟨by with_unfolding_all rfl, by with_unfolding_all rfl, by decide,
    by with_unfolding_all rfl, by decide⟩

/-- C3 (amended): for every ticket closed with an attached
MonthlyPass that is valid at the wall-clock time of the exit call
(`datetime.now()` — not the recorded closing time), the fee is 0 and
the pass registry is unchanged: the pass is not consumed and remains
valid and reusable for a subsequent session. -/
theorem C3_monthly_pass_free_exit {lot : ParkingLot} {tid : String}
    {t : ParkingTicket} {pid : String} {p : ParkingPass} {expiry : ℚ}
    (et : Option ℚ) (ps : Option PricingStrategy) (sd : Option ℚ) (now : ℚ)
    (ht : lookupKey lot.active_tickets tid = some t)
    (hp : t.parking_pass = some pid)
    (hlk : lookupKey lot.passes pid = some p)
    (hk : p.kind = .monthly expiry)
    (hv : now < expiry) :
    ∃ d : ExitDetails,
      (lot.vehicle_exit tid et ps sd now).1 = some d ∧ d.total_fee = 0 ∧
      (lot.vehicle_exit tid et ps sd now).2.passes = lot.passes ∧
      p.is_valid now = true := by
  rw [vehicle_exit_found et ps sd now ht]
  have hp1 : (t.set_exit_time
      (match et with | some e => e | none => now)).parking_pass = some pid := hp
  refine ⟨_, rfl, ?_, ?_, ?_⟩
  · show (ParkingTicket.calculate_fee _ _ _ _ _).1 = 0
    rw [calculate_fee_monthly_valid _ _ hp1 hlk hk hv]
  · show (ParkingTicket.calculate_fee _ _ _ _ _).2.2 = lot.passes
    rw [calculate_fee_monthly_valid _ _ hp1 hlk hk hv]
  · unfold ParkingPass.is_valid
    rw [hk]
    simp [hv]

theorem C3_monthly_pass_free_exit_witness :
    ∃ d : ExitDetails,
      (((((ParkingLot.init 10).issue_monthly_pass "John Smith" "XYZ-5678" 1 0).2.vehicle_entry
          ⟨"XYZ-5678", VehicleType.Car⟩ (some "MP-0001") (some 0) none 0).2).vehicle_exit
        "TKT-0001" (some 3600) none none 3600).1 = some d ∧
      d.total_fee = 0 ∧
      (((((ParkingLot.init 10).issue_monthly_pass "John Smith" "XYZ-5678" 1 0).2.vehicle_entry
          ⟨"XYZ-5678", VehicleType.Car⟩ (some "MP-0001") (some 0) none 0).2).vehicle_exit
        "TKT-0001" (some 3600) none none 3600).2.passes =
        ((((ParkingLot.init 10).issue_monthly_pass "John Smith" "XYZ-5678" 1 0).2.vehicle_entry
          ⟨"XYZ-5678", VehicleType.Car⟩ (some "MP-0001") (some 0) none 0).2).passes ∧
      (⟨"MP-0001", "John Smith", "XYZ-5678", PassKind.monthly 2592000⟩ : ParkingPass).is_valid
        3600 = true :=
  @C3_monthly_pass_free_exit
    (((ParkingLot.init 10).issue_monthly_pass "John Smith" "XYZ-5678" 1 0).2.vehicle_entry
        ⟨"XYZ-5678", VehicleType.Car⟩ (some "MP-0001") (some 0) none 0).2
    "TKT-0001"
    ⟨"TKT-0001", ⟨"XYZ-5678", VehicleType.Car⟩, 0, none, some "MP-0001", 0, 1⟩
    "MP-0001"
    ⟨"MP-0001", "John Smith", "XYZ-5678", PassKind.monthly 2592000⟩
    2592000
    (some 3600) none none 3600
    (by with_unfolding_all rfl) rfl (by with_unfolding_all rfl) rfl (by decide)

/-- C4: a fresh (unconsumed) SingleEntryPass attached to a ticket makes
the first fee computation charge exactly the flat rate `10.00` and
consumes the pass in the shared registry (its validity becomes false);
any later fee computation on any ticket carrying the same pass falls
back to metered billing instead of failing; and `use_pass` on an
already-consumed pass returns `False` and changes nothing. -/
theorem C4_single_entry_pass :
    FLAT_RATE = 10 ∧
    (∀ (t : ParkingTicket) (s : PricingStrategy) (dh : Option ℚ)
        (passes : List (String × ParkingPass)) (now : ℚ) (pid : String) (p : ParkingPass),
        t.parking_pass = some pid → lookupKey passes pid = some p →
        p.kind = .single false →
        (t.calculate_fee s dh passes now).1 = FLAT_RATE ∧
        lookupKey (t.calculate_fee s dh passes now).2.2 pid =
          some { p with kind := .single true } ∧
        (∀ now2 : ℚ,
          ParkingPass.is_valid { p with kind := PassKind.single true } now2 = false)) ∧
    (∀ (t : ParkingTicket) (s : PricingStrategy) (dh : Option ℚ)
        (passes : List (String × ParkingPass)) (now : ℚ) (pid : String) (p : ParkingPass),
        t.parking_pass = some pid → lookupKey passes pid = some p →
        p.kind = .single true →
        t.calculate_fee s dh passes now = t.meteredFee s dh passes now) ∧
    (∀ p : ParkingPass, p.kind = .single true → p.use_pass = (false, p)) := by
  refine ⟨rfl, ?_, ?_, ?_⟩
  · intro t s dh passes now pid p hp hlk hk
    rw [calculate_fee_single_fresh s dh now hp hlk hk]
    refine ⟨rfl, lookupKey_setKey_self _ hlk, ?_⟩
    intro now2
    rfl
  · intro t s dh passes now pid p hp hlk hk
    apply calculate_fee_metered
    unfold meteredApplies
    rw [hp]
    dsimp only
    rw [hlk]
    dsimp only
    rw [hk]
  · intro p hk
    unfold ParkingPass.use_pass
    rw [hk]
    rfl

theorem C4_single_entry_pass_witness :
    FLAT_RATE = 10 ∧
    (((⟨"TKT-0001", ⟨"SGL-2222", VehicleType.Car⟩, 0, none, some "SP-0001", 0, 1⟩ :
          ParkingTicket).calculate_fee StandardPricing (some 6)
        [("SP-0001", ⟨"SP-0001", "Jane Doe", "SGL-2222", PassKind.single false⟩)] 0).1 =
        FLAT_RATE ∧
      lookupKey ((⟨"TKT-0001", ⟨"SGL-2222", VehicleType.Car⟩, 0, none, some "SP-0001", 0, 1⟩ :
          ParkingTicket).calculate_fee StandardPricing (some 6)
        [("SP-0001", ⟨"SP-0001", "Jane Doe", "SGL-2222", PassKind.single false⟩)] 0).2.2
          "SP-0001" =
        some ⟨"SP-0001", "Jane Doe", "SGL-2222", PassKind.single true⟩ ∧
      (∀ now2 : ℚ,
        ParkingPass.is_valid ⟨"SP-0001", "Jane Doe", "SGL-2222", PassKind.single true⟩
          now2 = false)) ∧
    ((⟨"TKT-0002", ⟨"SGL-2222", VehicleType.Car⟩, 0, none, some "SP-0001", 0, 1⟩ :
        ParkingTicket).calculate_fee StandardPricing (some 6)
      [("SP-0001", ⟨"SP-0001", "Jane Doe", "SGL-2222", PassKind.single true⟩)] 0 =
      (⟨"TKT-0002", ⟨"SGL-2222", VehicleType.Car⟩, 0, none, some "SP-0001", 0, 1⟩ :
        ParkingTicket).meteredFee StandardPricing (some 6)
      [("SP-0001", ⟨"SP-0001", "Jane Doe", "SGL-2222", PassKind.single true⟩)] 0) ∧
    (⟨"SP-0001", "Jane Doe", "SGL-2222", PassKind.single true⟩ : ParkingPass).use_pass =
      (false, ⟨"SP-0001", "Jane Doe", "SGL-2222", PassKind.single true⟩) :=
  ⟨C4_single_entry_pass.1,
    C4_single_entry_pass.2.1
      ⟨"TKT-0001", ⟨"SGL-2222", VehicleType.Car⟩, 0, none, some "SP-0001", 0, 1⟩
      StandardPricing (some 6)
      [("SP-0001", ⟨"SP-0001", "Jane Doe", "SGL-2222", PassKind.single false⟩)]
      0 "SP-0001" ⟨"SP-0001", "Jane Doe", "SGL-2222", PassKind.single false⟩
      rfl (by decide) rfl,
    C4_single_entry_pass.2.2.1
      ⟨"TKT-0002", ⟨"SGL-2222", VehicleType.Car⟩, 0, none, some "SP-0001", 0, 1⟩
      StandardPricing (some 6)
      [("SP-0001", ⟨"SP-0001", "Jane Doe", "SGL-2222", PassKind.single true⟩)]
      0 "SP-0001" ⟨"SP-0001", "Jane Doe", "SGL-2222", PassKind.single true⟩
      rfl (by decide) rfl,
    C4_single_entry_pass.2.2.2 ⟨"SP-0001", "Jane Doe", "SGL-2222", PassKind.single true⟩ rfl⟩

/-- C6 counterexample: an explicitly supplied duration override of `0`
is ignored — `if simulated_duration:` is falsy for `0.0` — so the fee
is computed from the timestamps (1 hour, `$2.00`) instead of from the
override (`round(2.00 × 0, 2) = 0`). -/
theorem C6_zero_override_cex :
    ((((ParkingLot.init 10).vehicle_entry ⟨"ABC-1234", VehicleType.Car⟩
          none (some 0) none 0).2).vehicle_exit
        "TKT-0001" (some 3600) none (some 0) 3600).1.map ExitDetails.duration_hours =
      some 1 ∧
    ((((ParkingLot.init 10).vehicle_entry ⟨"ABC-1234", VehicleType.Car⟩
          none (some 0) none 0).2).vehicle_exit
        "TKT-0001" (some 3600) none (some 0) 3600).1.map ExitDetails.total_fee =
      some 2 ∧
    StandardPricing.calculate_fee "Car" 0 = 0 ∧
    (2 : ℚ) ≠ 0 :=
  ⟨by with_unfolding_all rfl, by with_unfolding_all rfl,
    by with_unfolding_all rfl, by decide⟩

/-- C6 (amended): on every `vehicle_exit` that reaches metered billing,
a supplied duration override is honored only when it is nonzero
(`if simulated_duration:` is a Python truthiness test); when the
override is absent or `0`, the duration is
`(exit_time − entry_time) / 3600` rounded to two decimals, and the fee
is the strategy's metered formula applied to that duration. -/
theorem C6_exit_duration_resolution {lot : ParkingLot} {tid : String}
    {t : ParkingTicket} (et : Option ℚ) (ps : Option PricingStrategy)
    (sd : Option ℚ) (now : ℚ)
    (ht : lookupKey lot.active_tickets tid = some t)
    (hm : meteredApplies t lot.passes now = true) :
    ∃ d : ExitDetails,
      (lot.vehicle_exit tid et ps sd now).1 = some d ∧
      d.duration_hours =
        (match sd with
         | some x => if x ≠ 0 then x
             else round2 (((match et with | some e => e | none => now) - t.entry_time) / 3600)
         | none => round2 (((match et with | some e => e | none => now) - t.entry_time) / 3600)) ∧
      d.pricing_strategy =
        (match ps with | some s => s | none => lot.pricing_strategy).strategy_name ∧
      d.total_fee =
        (match ps with | some s => s | none => lot.pricing_strategy).calculate_fee
          t.vehicle.vtype.get_vehicle_type d.duration_hours :=
  vehicle_exit_metered et ps sd now ht hm

theorem C6_exit_duration_resolution_witness :
    ∃ d : ExitDetails,
      ((((ParkingLot.init 10).vehicle_entry ⟨"ABC-1234", VehicleType.Car⟩
            none (some 0) none 0).2).vehicle_exit
          "TKT-0001" (some 3600) none (some (5/2)) 3600).1 = some d ∧
      d.duration_hours =
        (match (some (5/2) : Option ℚ) with
         | some x => if x ≠ 0 then x
             else round2 (((match (some (3600:ℚ) : Option ℚ) with
                 | some e => e | none => (3600:ℚ)) - (0:ℚ)) / 3600)
         | none => round2 (((match (some (3600:ℚ) : Option ℚ) with
             | some e => e | none => (3600:ℚ)) - (0:ℚ)) / 3600)) ∧
      d.pricing_strategy =
        (match (none : Option PricingStrategy) with
         | some s => s
         | none => (((ParkingLot.init 10).vehicle_entry ⟨"ABC-1234", VehicleType.Car⟩
             none (some 0) none 0).2).pricing_strategy).strategy_name ∧
      d.total_fee =
        (match (none : Option PricingStrategy) with
         | some s => s
         | none => (((ParkingLot.init 10).vehicle_entry ⟨"ABC-1234", VehicleType.Car⟩
             none (some 0) none 0).2).pricing_strategy).calculate_fee
          (⟨"ABC-1234", VehicleType.Car⟩ : Vehicle).vtype.get_vehicle_type d.duration_hours :=
  @C6_exit_duration_resolution
    (((ParkingLot.init 10).vehicle_entry ⟨"ABC-1234", VehicleType.Car⟩
        none (some 0) none 0).2)
    "TKT-0001"
    ⟨"TKT-0001", ⟨"ABC-1234", VehicleType.Car⟩, 0, none, none, 0, 1⟩
    (some 3600) none (some (5/2)) 3600
    (by with_unfolding_all rfl) (by with_unfolding_all rfl)

/-- C8: on a `vehicle_entry` with a (truthy) `pass_id` and sufficient
capacity, a pass is attached to the new ticket exactly when the id is
registered, the pass is valid at the wall clock, and its bound
registration equals the vehicle's registration; in every other case no
pass is attached, the entry still succeeds, and fee computation for the
session falls back to metered billing. (`hwf` records that the lot's
registry binds each pass under its own id, which holds for every lot
built through the public interface.) -/
theorem C8_entry_pass_attachment (lot : ParkingLot) (v : Vehicle) (pid : String)
    (et : Option ℚ) (ps : Option PricingStrategy) (now : ℚ)
    (hpid : pid ≠ "")
    (hwf : ∀ q : ParkingPass, lookupKey lot.passes pid = some q → q.pass_id = pid)
    (hcap : ¬ lot.get_available_spaces < v.get_space_requirement) :
    ∃ (t : ParkingTicket) (lot' : ParkingLot),
      lot.vehicle_entry v (some pid) et ps now = (some t, lot') ∧
      (t.parking_pass = some pid ↔
        ∃ p, lookupKey lot.passes pid = some p ∧ p.is_valid now = true ∧
          p.vehicle_registration = v.get_registration) ∧
      (t.parking_pass = some pid ∨ t.parking_pass = none) ∧
      (t.parking_pass = none →
        ∀ (s : PricingStrategy) (dh : Option ℚ)
          (passes2 : List (String × ParkingPass)) (now2 : ℚ),
        t.calculate_fee s dh passes2 now2 = t.meteredFee s dh passes2 now2) := by
  rw [vehicle_entry_granted (some pid) et ps now hcap]
  obtain ⟨hiff, hdisj⟩ := entryTicket_pass_spec lot v pid
    ("TKT-" ++ pad4 (lot.ticket_counter + 1))
    (match et with | some e => e | none => now) now hpid hwf
  exact ⟨_, _, rfl, hiff, hdisj,
    fun hnone s dh passes2 now2 => calculate_fee_no_pass s dh passes2 now2 hnone⟩

theorem C8_entry_pass_attachment_witness :
    ∃ (t : ParkingTicket) (lot' : ParkingLot),
      (((ParkingLot.init 10).issue_monthly_pass "John Smith" "XYZ-5678" 1 0).2).vehicle_entry
          ⟨"XYZ-5678", VehicleType.Car⟩ (some "MP-0001") (some 10) none 5 = (some t, lot') ∧
      (t.parking_pass = some "MP-0001" ↔
        ∃ p, lookupKey (((ParkingLot.init 10).issue_monthly_pass
            "John Smith" "XYZ-5678" 1 0).2).passes "MP-0001" = some p ∧
          p.is_valid 5 = true ∧
          p.vehicle_registration = (⟨"XYZ-5678", VehicleType.Car⟩ : Vehicle).get_registration) ∧
      (t.parking_pass = some "MP-0001" ∨ t.parking_pass = none) ∧
      (t.parking_pass = none →
        ∀ (s : PricingStrategy) (dh : Option ℚ)
          (passes2 : List (String × ParkingPass)) (now2 : ℚ),
        t.calculate_fee s dh passes2 now2 = t.meteredFee s dh passes2 now2) := by
  have hwf : ∀ q : ParkingPass,
      lookupKey (((ParkingLot.init 10).issue_monthly_pass
        "John Smith" "XYZ-5678" 1 0).2).passes "MP-0001" = some q →
      q.pass_id = "MP-0001" := by
    intro q hq
    rw [show lookupKey (((ParkingLot.init 10).issue_monthly_pass
        "John Smith" "XYZ-5678" 1 0).2).passes "MP-0001" =
        some (⟨"MP-0001", "John Smith", "XYZ-5678", PassKind.monthly 2592000⟩ : ParkingPass)
      from by with_unfolding_all rfl] at hq
    injection hq with h
    rw [← h]
  exact C8_entry_pass_attachment
    (((ParkingLot.init 10).issue_monthly_pass "John Smith" "XYZ-5678" 1 0).2)
    ⟨"XYZ-5678", VehicleType.Car⟩ "MP-0001" (some 10) none 5
    (by decide) hwf (by decide)

/-- C9 counterexample: the public `set_occupied_spaces` helper clamps
only from above (`min(count, total)`), so a single call with a negative
count leaves `occupied_spaces = -1 < 0`, violating
`0 ≤ occupied_spaces ≤ total_spaces`. -/
theorem C9_negative_occupied_cex :
    (runOps (ParkingLot.init 300) [LotOp.setOccupied (-1)]).occupied_spaces = -1 ∧
    ¬ (0 ≤ (runOps (ParkingLot.init 300) [LotOp.setOccupied (-1)]).occupied_spaces) :=
  ⟨by decide, by decide⟩

/-- C9 (amended): for every sequence of operations that does not use
`set_occupied_spaces`, starting from a freshly constructed lot with
nonnegative capacity, `0 ≤ occupied_spaces ≤ total_spaces` holds after
each operation; `set_occupied_spaces` itself guarantees only the upper
bound (it clamps at `total_spaces` but not at 0). -/
theorem C9_occupied_bounds (total : ℤ) (ops : List LotOp) (htot : 0 ≤ total)
    (hops : ∀ op ∈ ops, op.isSetOccupied = false) :
    (0 ≤ (runOps (ParkingLot.init total) ops).occupied_spaces ∧
      (runOps (ParkingLot.init total) ops).occupied_spaces ≤ total) ∧
    ∀ (lot : ParkingLot) (c : ℤ),
      (lot.set_occupied_spaces c).occupied_spaces ≤ lot.total_spaces := by
  have hti : TicketInv (ParkingLot.init total) :=
    ⟨rfl, fun _ hkt => absurd hkt (List.not_mem_nil _)⟩
  have h := bounds_runOps hti htot hops
  refine ⟨⟨occupied_nonneg_of_ticketInv h.1, ?_⟩, ?_⟩
  · have h2 := h.2
    rwa [total_spaces_runOps] at h2
  · intro lot c
    exact min_le_right c lot.total_spaces

theorem C9_occupied_bounds_witness :
    ((0 ≤ (runOps (ParkingLot.init 300)
        [LotOp.entry ⟨"TRK-9999", VehicleType.Truck⟩ none (some 0) none 0,
         LotOp.leave "TKT-0001" (some 7200) none none 7200]).occupied_spaces ∧
      (runOps (ParkingLot.init 300)
        [LotOp.entry ⟨"TRK-9999", VehicleType.Truck⟩ none (some 0) none 0,
         LotOp.leave "TKT-0001" (some 7200) none none 7200]).occupied_spaces ≤ 300) ∧
    ∀ (lot : ParkingLot) (c : ℤ),
      (lot.set_occupied_spaces c).occupied_spaces ≤ lot.total_spaces) ∧
    (0 : ℤ) ≤ 300 :=
  ⟨C9_occupied_bounds 300 _ (by decide) (by decide), by decide⟩

/-- C10: a freshly constructed lot's default pricing strategy is
`StandardPricing` (Car $2.00/h, Motorcycle $1.00/h, Truck $3.00/h), no
operation — in particular none that is handed an explicit strategy —
ever changes the stored default, and a `vehicle_exit` called without a
strategy bills metered sessions under the lot's default strategy. -/
theorem C10_default_pricing_standard :
    (∀ total : ℤ, (ParkingLot.init total).pricing_strategy = StandardPricing) ∧
    StandardPricing.get_hourly_rate "Car" = 2 ∧
    StandardPricing.get_hourly_rate "Motorcycle" = 1 ∧
    StandardPricing.get_hourly_rate "Truck" = 3 ∧
    (∀ (lot : ParkingLot) (op : LotOp),
      (applyOp lot op).pricing_strategy = lot.pricing_strategy) ∧
    (∀ (lot : ParkingLot) (tid : String) (t : ParkingTicket) (et : Option ℚ)
        (sd : Option ℚ) (now : ℚ),
      lookupKey lot.active_tickets tid = some t →
      meteredApplies t lot.passes now = true →
      ∃ d : ExitDetails,
        (lot.vehicle_exit tid et none sd now).1 = some d ∧
        d.pricing_strategy = lot.pricing_strategy.strategy_name ∧
        d.total_fee = lot.pricing_strategy.calculate_fee
          t.vehicle.vtype.get_vehicle_type d.duration_hours) := by
  refine ⟨fun total => rfl, rfl, rfl, rfl, pricing_strategy_applyOp, ?_⟩
  intro lot tid t et sd now ht hm
  obtain ⟨d, h1, hdur, hname, hfee⟩ := vehicle_exit_metered et none sd now ht hm
  exact ⟨d, h1, hname, hfee⟩

theorem C10_default_pricing_standard_witness :
    (ParkingLot.init 300).pricing_strategy = StandardPricing ∧
    StandardPricing.get_hourly_rate "Car" = 2 ∧
    (applyOp (ParkingLot.init 300)
        (LotOp.entry ⟨"ABC-1234", VehicleType.Car⟩ none (some 0)
          (some PeakPricing) 0)).pricing_strategy =
      (ParkingLot.init 300).pricing_strategy ∧
    ∃ d : ExitDetails,
      ((((ParkingLot.init 10).vehicle_entry ⟨"ABC-1234", VehicleType.Car⟩
            none (some 0) none 0).2).vehicle_exit
          "TKT-0001" (some 3600) none none 3600).1 = some d ∧
      d.pricing_strategy =
        (((ParkingLot.init 10).vehicle_entry ⟨"ABC-1234", VehicleType.Car⟩
            none (some 0) none 0).2).pricing_strategy.strategy_name ∧
      d.total_fee =
        (((ParkingLot.init 10).vehicle_entry ⟨"ABC-1234", VehicleType.Car⟩
            none (some 0) none 0).2).pricing_strategy.calculate_fee
          (⟨"TKT-0001", ⟨"ABC-1234", VehicleType.Car⟩, 0, none, none, 0, 1⟩ :
            ParkingTicket).vehicle.vtype.get_vehicle_type d.duration_hours :=
  ⟨C10_default_pricing_standard.1 300,
    C10_default_pricing_standard.2.1,
    C10_default_pricing_standard.2.2.2.2.1 (ParkingLot.init 300)
      (LotOp.entry ⟨"ABC-1234", VehicleType.Car⟩ none (some 0) (some PeakPricing) 0),
    C10_default_pricing_standard.2.2.2.2.2
      (((ParkingLot.init 10).vehicle_entry ⟨"ABC-1234", VehicleType.Car⟩
          none (some 0) none 0).2)
      "TKT-0001"
      ⟨"TKT-0001", ⟨"ABC-1234", VehicleType.Car⟩, 0, none, none, 0, 1⟩
      (some 3600) none 3600
      (by with_unfolding_all rfl) (by with_unfolding_all rfl)⟩
